import Mathlib

/-!
Shallow embedding, in Lean 4, of the Whisper LoRA fine-tuning script
`finetune.py` (lfedgeai/Whisper-Finetune).

Modelling conventions:

* Filesystem paths are modelled as lists of path components (`Path`).
  Every call to `os.path.join` in the script joins a directory with a
  single relative component containing no separator, so
  `os.path.join(d, c)` is embedded as `d ++ [c]`.
* The filesystem is a record of regular files (with a coarse content
  kind) and directories.  `os.path.exists` / `os.remove` are embedded
  over this record.
* External library calls (`save_pretrained` of the PEFT-wrapped model,
  the generic trainer's full snapshot write, feature extraction and
  tokenization) are embedded as the filesystem writes / abstract
  functions the surrounding script observes.
-/

namespace Finetune

/-- A filesystem path, as its list of components (see module docstring). -/
abbrev Path := List String

/-- Embedding of `os.path.join(p, c)` for a single relative component `c`
containing no separator, which is the only way the script calls it. -/
def os_path_join (p : Path) (c : String) : Path := p ++ [c]

/-- Coarse classification of the contents of files the script writes or
deletes: the adapter weight file and adapter config written by the PEFT
`save_pretrained`, the full model snapshot (`pytorch_model.bin`), and
anything else already on disk. -/
inductive FileKind where
  | adapterWeights
  | adapterConfig
  | fullModelSnapshot
  | other
deriving DecidableEq, Repr

/-- The filesystem state: regular files (path and content kind) and
directories. -/
structure FS where
  files : List (Path × FileKind)
  dirs : List Path
deriving DecidableEq, Repr

/-- Embedding of `os.path.exists(p)`: true when `p` is a regular file or a
directory. -/
def path_exists (fs : FS) (p : Path) : Bool :=
  fs.files.any (fun e => e.1 == p) || fs.dirs.any (fun d => d == p)

/-- Embedding of `os.remove(p)`: removes the regular file at `p`.  The
script only calls it under an `os.path.exists` guard. -/
def os_remove (fs : FS) (p : Path) : FS :=
  { fs with files := fs.files.filter (fun e => !(e.1 == p)) }

/-- Embedding of `kwargs["model"].save_pretrained(dir)` (finetune.py line
105), the PEFT adapter save: creates `dir` and writes the adapter's
trainable weights (`adapter_model.bin`) and its config
(`adapter_config.json`) inside it.  Only adapter content is written. -/
def save_pretrained_adapter (dir : Path) (fs : FS) : FS :=
  { files := (os_path_join dir "adapter_model.bin", FileKind.adapterWeights) ::
             (os_path_join dir "adapter_config.json", FileKind.adapterConfig) ::
             fs.files,
    dirs := dir :: fs.dirs }

/-- The constant `transformers.trainer_utils.PREFIX_CHECKPOINT_DIR`: the
fixed first part of checkpoint directory names. -/
def PREFIX_CHECKPOINT_DIR : String := "checkpoint"

/-- The checkpoint directory name `f"{PREFIX_CHECKPOINT_DIR}-{state.global_step}"`
(finetune.py line 103). -/
def checkpoint_dir_name (global_step : Nat) : String :=
  PREFIX_CHECKPOINT_DIR ++ "-" ++ toString global_step

/-- Embedding of finetune.py lines 107–109: the cleanup step of the save
callback.  Computes `pytorch_model.bin` inside the checkpoint folder and
deletes it only if it exists. -/
def cleanup_full_snapshot (checkpoint_folder : Path) (fs : FS) : FS :=
  let pytorch_model_path := os_path_join checkpoint_folder "pytorch_model.bin"
  if path_exists fs pytorch_model_path then os_remove fs pytorch_model_path else fs

/-- The record `transformers.TrainerControl`: the control-flow flags the trainer hands
to each callback. -/
structure TrainerControl where
  should_training_stop : Bool
  should_epoch_stop : Bool
  should_save : Bool
  should_evaluate : Bool
  should_log : Bool
deriving DecidableEq, Repr

/-- Embedding of `SavePeftModelCallback.on_save` (finetune.py lines
98–110): computes the checkpoint folder from the trainer's output
directory and the global step, saves the adapter into the
`adapter_model` subdirectory, runs the conditional cleanup of
`pytorch_model.bin`, and returns the control object. -/
def on_save (output_dir : Path) (global_step : Nat) (control : TrainerControl)
    (fs : FS) : FS × TrainerControl :=
  let checkpoint_folder := os_path_join output_dir (checkpoint_dir_name global_step)
  let peft_model_path := os_path_join checkpoint_folder "adapter_model"
  let fs1 := save_pretrained_adapter peft_model_path fs
  let fs2 := cleanup_full_snapshot checkpoint_folder fs1
  (fs2, control)

/-- The parsed command-line configuration (finetune.py lines 18–34).
`learning_rate` is a float flag; it is embedded as a rational. -/
structure Args where
  train_data : String
  test_data : String
  base_model : String
  output_path : String
  logging_steps : Nat
  warmup_steps : Nat
  num_workers : Nat
  learning_rate : ℚ
  num_train_epochs : Nat
  task : String
  resume_from_checkpoint : Option String
  per_device_train_batch_size : Nat
  per_device_eval_batch_size : Nat
  gradient_accumulation_steps : Nat
  generation_max_length : Nat
deriving DecidableEq, Repr

/-- The parser defaults of finetune.py lines 19–33 (`1e-3` as `1/1000`). -/
def default_args : Args :=
  { train_data := "dataset/train.json"
    test_data := "dataset/test.json"
    base_model := "openai/whisper-large-v2"
    output_path := "models/whisper-large-v2-lora"
    logging_steps := 100
    warmup_steps := 50
    num_workers := 8
    learning_rate := 1/1000
    num_train_epochs := 3
    task := "transcribe"
    resume_from_checkpoint := none
    per_device_train_batch_size := 8
    per_device_eval_batch_size := 8
    gradient_accumulation_steps := 1
    generation_max_length := 128 }

/-- Reverse of `List.dropWhile`-from-the-right: drops trailing characters
satisfying `p`.  Used to strip trailing slashes in `os_path_dirname`. -/
def rstripChar (p : Char → Bool) (l : List Char) : List Char :=
  (l.reverse.dropWhile p).reverse

/-- Embedding of CPython `posixpath.dirname`: take everything up to and
including the last `/`, then strip trailing slashes unless the head is
empty or consists only of slashes. -/
def os_path_dirname (s : String) : String :=
  let cs := s.data
  let i := match cs.reverse.findIdx? (fun c => c == '/') with
    | some j => cs.length - j
    | none => 0
  let head := cs.take i
  let head := if head ≠ [] ∧ ¬ head.all (fun c => c == '/') then
      rstripChar (fun c => c == '/') head
    else head
  String.mk head

/-- The observable module-level actions of finetune.py between the
base-model assertion (line 38) and the trainer construction, in program
order: processor loading (lines 40–42), `load_dataset` (line 57),
`cast_column` (line 58) and `with_transform` (line 59). -/
inductive ScriptEvent where
  | loadFeatureExtractor
  | loadTokenizer
  | loadProcessor
  | loadDataset
  | castColumn
  | withTransform
deriving DecidableEq, Repr

/-- Embedding of the script prelude around the assertion
`assert 'openai' == os.path.dirname(args.base_model)` (finetune.py line
38): when the assertion holds the script performs, in order, the events
of lines 40–59; when it fails, the script aborts with an `AssertionError`
having performed none of them.  Returns the executed events and whether
the prelude completed. -/
def script_prelude (a : Args) : List ScriptEvent × Bool :=
  if "openai" = os_path_dirname a.base_model then
    ([ScriptEvent.loadFeatureExtractor, ScriptEvent.loadTokenizer,
      ScriptEvent.loadProcessor, ScriptEvent.loadDataset,
      ScriptEvent.castColumn, ScriptEvent.withTransform], true)
  else ([], false)

/-- The fields of the `Seq2SeqTrainingArguments` constructed by the script
(finetune.py lines 78–93).  `report_to` is kept as the list of reporting
integrations. -/
structure Seq2SeqTrainingArgumentsRec where
  output_dir : String
  per_device_train_batch_size : Nat
  gradient_accumulation_steps : Nat
  learning_rate : ℚ
  warmup_steps : Nat
  num_train_epochs : Nat
  save_strategy : String
  evaluation_strategy : String
  fp16 : Bool
  report_to : List String
  dataloader_num_workers : Nat
  per_device_eval_batch_size : Nat
  generation_max_length : Nat
  logging_steps : Nat
  remove_unused_columns : Bool
  label_names : List String
deriving DecidableEq, Repr

/-- Embedding of the `Seq2SeqTrainingArguments(...)` call of finetune.py
lines 78–93: `output_dir` is the hardcoded string `"output"`; the other
fields are wired from the parsed flags or hardcoded as in the source. -/
def make_training_args (a : Args) : Seq2SeqTrainingArgumentsRec :=
  { output_dir := "output"
    per_device_train_batch_size := a.per_device_train_batch_size
    gradient_accumulation_steps := a.gradient_accumulation_steps
    learning_rate := a.learning_rate
    warmup_steps := a.warmup_steps
    num_train_epochs := a.num_train_epochs
    save_strategy := "epoch"
    evaluation_strategy := "epoch"
    fp16 := true
    report_to := ["tensorboard"]
    dataloader_num_workers := a.num_workers
    per_device_eval_batch_size := a.per_device_eval_batch_size
    generation_max_length := a.generation_max_length
    logging_steps := a.logging_steps
    remove_unused_columns := false
    label_names := ["labels"] }

/-- The generic trainer's own checkpoint write: before the callbacks run,
it may write the full-model snapshot `pytorch_model.bin` into the
checkpoint directory for the current global step.  (The spec's scenario
"even if the generic trainer wrote the latter first".) -/
def trainer_generic_save (output_dir : Path) (global_step : Nat) (fs : FS) : FS :=
  { fs with
    files := (os_path_join (os_path_join output_dir (checkpoint_dir_name global_step))
                "pytorch_model.bin", FileKind.fullModelSnapshot) :: fs.files }

/-- One checkpoint event as the trainer emits it: optionally (flag
`trainer_writes_full`) the generic full-model snapshot write, then the
`SavePeftModelCallback.on_save` callback. -/
def checkpoint_event (output_dir : Path) (global_step : Nat)
    (trainer_writes_full : Bool) (control : TrainerControl) (fs : FS) : FS :=
  let fs1 := if trainer_writes_full then trainer_generic_save output_dir global_step fs else fs
  (on_save output_dir global_step control fs1).1

/-- The sequence of checkpoint events of a training run: one per listed
`(global_step, trainer_writes_full)` pair, in order. -/
def run_checkpoints (output_dir : Path) (events : List (Nat × Bool))
    (control : TrainerControl) (fs : FS) : FS :=
  events.foldl (fun acc e => checkpoint_event output_dir e.1 e.2 control acc) fs

/-- Embedding of `if training_args.local_rank == 0: model.save_pretrained(...)`
(finetune.py lines 127–128): the end-of-training save happens only on the
designated primary process (`local_rank = 0`).  By line 71, `model` is
the PEFT-wrapped model, so this `save_pretrained` is the same adapter
save as the one the callback performs at line 105 — it writes the
adapter files, not a full-model snapshot — here targeted at the
top-level output directory. -/
def final_save (local_rank : Int) (output_dir : Path) (fs : FS) : FS :=
  if local_rank = 0 then save_pretrained_adapter output_dir fs else fs

/-- A whole training run as the script persists state: the checkpoint
events, then the end-of-training save. -/
def run_training (output_dir : Path) (events : List (Nat × Bool))
    (control : TrainerControl) (local_rank : Int) (fs : FS) : FS :=
  final_save local_rank output_dir (run_checkpoints output_dir events control fs)

/-- Predicate: `fs` holds no full-model snapshot file. -/
def no_full_snapshot (fs : FS) : Bool :=
  fs.files.all (fun e => !(e.2 == FileKind.fullModelSnapshot))

/-- The paths of all full-model snapshot files in `fs`. -/
def full_snapshot_paths (fs : FS) : List Path :=
  (fs.files.filter (fun e => e.2 == FileKind.fullModelSnapshot)).map Prod.fst

/-! ### Dataset records and preprocessing (finetune.py lines 46–59)

The audio sample array and the feature-extractor output are abstract
types `A` and `F`; `feature_extractor` embeds the composite call
`feature_extractor(array, sampling_rate=rate).input_features[0]` and
`tokenizer` embeds `tokenizer(s).input_ids`. -/

/-- One decoded `audio` column value: the sample array and its sample
rate. -/
structure AudioData (A : Type) where
  array : A
  sampling_rate : Nat

/-- One raw dataset record as loaded from the JSON files: an `audio`
value and a `sentence` transcript. -/
structure RawRecord (A : Type) where
  audio : AudioData A
  sentence : String

/-- A batch as `prepare_dataset` receives it: the columnar view with the
`audio` list and the `sentence` list (record `i` is `audio[i]` paired
with `sentence[i]`). -/
structure RawRecordBatch (A : Type) where
  audio : List (AudioData A)
  sentence : List String

/-- The batch `prepare_dataset` returns: the `input_features` column and
the `labels` column. -/
structure PreparedBatch (F : Type) where
  input_features : List F
  labels : List (List Nat)

/-- Embedding of `prepare_dataset` (finetune.py lines 46–53): builds a new
batch whose `input_features` are the feature-extractor outputs of each
audio record (passing that record's `sampling_rate`) and whose `labels`
are the token ids of each transcript, both by list comprehension over the
input columns. -/
def prepare_dataset {A F : Type} (feature_extractor : A → Nat → F)
    (tokenizer : String → List Nat) (batch : RawRecordBatch A) : PreparedBatch F :=
  { input_features := batch.audio.map (fun a => feature_extractor a.array a.sampling_rate)
    labels := batch.sentence.map (fun s => tokenizer s) }

/-- The dataset dictionary of finetune.py line 57: the `train` and `test`
splits, each an ordered list of raw records. -/
structure DatasetDict (A : Type) where
  train : List (RawRecord A)
  test : List (RawRecord A)

/-- Embedding of casting one record's audio to `Audio(sampling_rate=target)`:
the array is resampled from its original rate to `target` (by the
abstract `resample`) and the stored sample rate becomes `target`. -/
def audio_cast {A : Type} (resample : A → Nat → Nat → A) (target : Nat)
    (a : AudioData A) : AudioData A :=
  { array := resample a.array a.sampling_rate target, sampling_rate := target }

/-- Embedding of `audio_data.cast_column("audio", Audio(sampling_rate=16000))`
(finetune.py line 58) on one split: every record's audio is cast. -/
def cast_column_audio {A : Type} (resample : A → Nat → Nat → A) (target : Nat)
    (split : List (RawRecord A)) : List (RawRecord A) :=
  split.map (fun r => { r with audio := audio_cast resample target r.audio })

/-- The cast applied to the dataset dictionary: both splits are
cast. -/
def cast_column_dict {A : Type} (resample : A → Nat → Nat → A) (target : Nat)
    (d : DatasetDict A) : DatasetDict A :=
  { train := cast_column_audio resample target d.train
    test := cast_column_audio resample target d.test }

/-- An on-access batch of a split, as `with_transform` forms it before
handing it to `prepare_dataset`: the records at the requested indices, in
request order, viewed columnar. -/
def access_batch {A : Type} (split : List (RawRecord A)) (idxs : List Nat) :
    RawRecordBatch A :=
  let records := idxs.filterMap (fun i => split.get? i)
  { audio := records.map (fun r => r.audio)
    sentence := records.map (fun r => r.sentence) }

/-! ### Statement-level view of `prepare_dataset`

To reason about mutation, the body of `prepare_dataset` is also embedded
at the level of Python dict operations: the batch is a dict from column
names to column values, and each assignment statement of the function is
one dict update.  The pair returned threads the input dict through the
body, so that what the body does to it is explicit. -/

/-- A Python value stored in a batch dict: one of the four column shapes
occurring in `prepare_dataset`. -/
inductive PyVal (A F : Type) where
  | audioCol (l : List (AudioData A))
  | strCol (l : List String)
  | featCol (l : List F)
  | labelCol (l : List (List Nat))

/-- A Python dict from column names to column values, in insertion
order. -/
abbrev PyDict (A F : Type) := List (String × PyVal A F)

/-- Python dict assignment `d[k] = v`: replaces in place if the key is
present, appends otherwise. -/
def dict_set {A F : Type} (d : PyDict A F) (k : String) (v : PyVal A F) : PyDict A F :=
  if d.any (fun e => e.1 == k) then
    d.map (fun e => if e.1 == k then (k, v) else e)
  else d ++ [(k, v)]

/-- Reading the `audio` column from a batch dict (`batch["audio"]`),
defaulting to the empty column when absent or of another shape. -/
def dict_audio {A F : Type} (d : PyDict A F) : List (AudioData A) :=
  match d.find? (fun e => e.1 == "audio") with
  | some (_, PyVal.audioCol l) => l
  | _ => []

/-- Reading the `sentence` column from a batch dict (`batch["sentence"]`). -/
def dict_sentence {A F : Type} (d : PyDict A F) : List String :=
  match d.find? (fun e => e.1 == "sentence") with
  | some (_, PyVal.strCol l) => l
  | _ => []

/-- The keys of a batch dict, in order. -/
def dict_keys {A F : Type} (d : PyDict A F) : List String := d.map Prod.fst

/-- Statement-level embedding of `prepare_dataset` (finetune.py lines
46–53).  Each `let` is one statement of the body; every write targets
`new_batch`, never `batch`, and the input dict is returned alongside the
result to make that explicit. -/
def prepare_dataset_statements {A F : Type} (feature_extractor : A → Nat → F)
    (tokenizer : String → List Nat) (batch : PyDict A F) :
    PyDict A F × PyDict A F :=
  let new_batch : PyDict A F := []
  let new_batch := dict_set new_batch "input_features"
    (PyVal.featCol ((dict_audio batch).map (fun a => feature_extractor a.array a.sampling_rate)))
  let new_batch := dict_set new_batch "labels"
    (PyVal.labelCol ((dict_sentence batch).map (fun s => tokenizer s)))
  (batch, new_batch)

/-! ### The adaptation wrapper (finetune.py lines 64–71) -/

/-- The `LoraConfig(...)` record of finetune.py line 70.  The float
dropout `0.05` is embedded as the rational `1/20`. -/
structure LoraConfigRec where
  r : Nat
  lora_alpha : Nat
  target_modules : List String
  lora_dropout : ℚ
  bias : String
deriving DecidableEq, Repr

/-- The config the script builds:
`LoraConfig(r=32, lora_alpha=64, target_modules=["q_proj", "v_proj"], lora_dropout=0.05, bias="none")`. -/
def lora_config : LoraConfigRec :=
  { r := 32
    lora_alpha := 64
    target_modules := ["q_proj", "v_proj"]
    lora_dropout := 1/20
    bias := "none" }

/-- One step of the adaptation wrapper, as an observable action. -/
inductive AdaptStep where
  | loadPretrained (load_in_8bit : Bool) (device_map : String)
  | setForcedDecoderIds (v : Option (List (Nat × Nat)))
  | setSuppressTokens (v : List Nat)
  | prepareInt8Training (output_embedding_layer_name : String)
  | attachLora (cfg : LoraConfigRec)
deriving DecidableEq, Repr

/-- Trace embedding of finetune.py lines 64–71, in program order: load
the base model 8-bit quantized with `device_map="auto"` (line 64), set
`forced_decoder_ids = None` (line 65), set `suppress_tokens = []`
(line 66), `prepare_model_for_int8_training` (line 69), and
`get_peft_model` with `lora_config` (lines 70–71). -/
def adaptation_steps : List AdaptStep :=
  [AdaptStep.loadPretrained true "auto",
   AdaptStep.setForcedDecoderIds none,
   AdaptStep.setSuppressTokens [],
   AdaptStep.prepareInt8Training "proj_out",
   AdaptStep.attachLora lora_config]

/-- A reference to one parameter tensor of the wrapped model: the module
it lives on and whether it is one of the injected low-rank (LoRA)
parameters. -/
structure ParamRef where
  module : String
  is_lora : Bool
deriving DecidableEq, Repr

/-- Model of peft's `get_peft_model` trainability outcome, per its
documented behaviour: after wrapping, a parameter is trainable exactly
when it is an injected low-rank parameter on one of the config's target
modules; every other parameter is frozen. -/
def get_peft_model_trainable (cfg : LoraConfigRec) (p : ParamRef) : Bool :=
  p.is_lora && cfg.target_modules.any (fun m => m == p.module)

/-- A concrete `TrainerControl` value, used to instantiate witnesses. -/
def sample_control : TrainerControl :=
  { should_training_stop := false
    should_epoch_stop := false
    should_save := true
    should_evaluate := false
    should_log := false }

/-! ### Helper lemmas about the filesystem operations -/

/-- The cleanup step never changes the directory set. -/
lemma cleanup_full_snapshot_dirs (cf : Path) (fs : FS) :
    (cleanup_full_snapshot cf fs).dirs = fs.dirs := by
  simp only [cleanup_full_snapshot, os_remove]
  split <;> rfl

/-- Files surviving the cleanup step were files before it. -/
lemma mem_files_cleanup (cf : Path) (fs : FS) (e : Path × FileKind)
    (he : e ∈ (cleanup_full_snapshot cf fs).files) : e ∈ fs.files := by
  simp only [cleanup_full_snapshot, os_remove] at he
  split at he
  · exact (List.mem_filter.mp he).1
  · exact he

/-- A file whose path is not the snapshot path survives the cleanup step. -/
lemma mem_files_cleanup_of_ne (cf : Path) (fs : FS) (e : Path × FileKind)
    (he : e ∈ fs.files) (hne : e.1 ≠ os_path_join cf "pytorch_model.bin") :
    e ∈ (cleanup_full_snapshot cf fs).files := by
  simp only [cleanup_full_snapshot, os_remove]
  split
  · exact List.mem_filter.mpr ⟨he, by simpa using hne⟩
  · exact he

/-- If the snapshot file existed, no surviving file has its path. -/
lemma mem_files_cleanup_ne (cf : Path) (fs : FS) (e : Path × FileKind)
    (hex : path_exists fs (os_path_join cf "pytorch_model.bin") = true)
    (he : e ∈ (cleanup_full_snapshot cf fs).files) :
    e.1 ≠ os_path_join cf "pytorch_model.bin" := by
  simp only [cleanup_full_snapshot, os_remove, hex, if_pos] at he
  simpa using (List.mem_filter.mp he).2

/-- After the cleanup step, the snapshot file does not exist, provided no
directory sits at its path. -/
lemma cleanup_path_exists_false (cf : Path) (fs : FS)
    (hd : os_path_join cf "pytorch_model.bin" ∉ fs.dirs) :
    path_exists (cleanup_full_snapshot cf fs) (os_path_join cf "pytorch_model.bin") = false := by
  cases hex : path_exists fs (os_path_join cf "pytorch_model.bin") with
  | false =>
      have hfs : cleanup_full_snapshot cf fs = fs := by
        simp only [cleanup_full_snapshot, hex]
        simp
      rw [hfs, hex]
  | true =>
      rw [Bool.eq_false_iff]
      intro hcontra
      rw [path_exists, Bool.or_eq_true] at hcontra
      rcases hcontra with hfile | hdir
      · rw [List.any_eq_true] at hfile
        obtain ⟨e, he, hpe⟩ := hfile
        exact mem_files_cleanup_ne cf fs e hex he (by simpa using hpe)
      · rw [List.any_eq_true] at hdir
        obtain ⟨d, hdmem, hpd⟩ := hdir
        rw [cleanup_full_snapshot_dirs] at hdmem
        rw [beq_iff_eq] at hpd
        exact hd (hpd ▸ hdmem)

/-- The adapter weight file path differs from the snapshot path (they have
different lengths below the checkpoint folder). -/
lemma adapter_file_ne_snapshot (cf : Path) :
    os_path_join (os_path_join cf "adapter_model") "adapter_model.bin" ≠
      os_path_join cf "pytorch_model.bin" := by
  intro h
  have := congrArg List.length h
  simp [os_path_join] at this

/-- The adapter config file path differs from the snapshot path. -/
lemma adapter_config_ne_snapshot (cf : Path) :
    os_path_join (os_path_join cf "adapter_model") "adapter_config.json" ≠
      os_path_join cf "pytorch_model.bin" := by
  intro h
  have := congrArg List.length h
  simp [os_path_join] at this

/-- The adapter subdirectory path differs from the snapshot path. -/
lemma adapter_dir_ne_snapshot (cf : Path) :
    os_path_join cf "adapter_model" ≠ os_path_join cf "pytorch_model.bin" := by
  intro h
  simp only [os_path_join, List.append_cancel_left_eq, List.cons.injEq] at h
  exact absurd h.1 (by decide)

/-- C2: for every checkpoint event at global step N, `on_save` computes
the checkpoint directory as the trainer's output directory joined with
"checkpoint-N", writes the adapter's trainable weights into the fixed
`adapter_model` subdirectory beneath it, and afterwards the file
`pytorch_model.bin` in that checkpoint directory does not exist — even if
the generic trainer wrote it before the callback ran (it may be among the
input files). -/
theorem claim2_on_save_checkpoint_layout (output_dir : Path) (step : Nat)
    (control : TrainerControl) (fs : FS)
    (hdir : os_path_join (os_path_join output_dir (checkpoint_dir_name step))
      "pytorch_model.bin" ∉ fs.dirs) :
    os_path_join output_dir (checkpoint_dir_name step) =
      output_dir ++ ["checkpoint-" ++ toString step] ∧
    os_path_join (os_path_join output_dir (checkpoint_dir_name step)) "adapter_model" ∈
      (on_save output_dir step control fs).1.dirs ∧
    (os_path_join (os_path_join (os_path_join output_dir (checkpoint_dir_name step))
        "adapter_model") "adapter_model.bin", FileKind.adapterWeights) ∈
      (on_save output_dir step control fs).1.files ∧
    path_exists (on_save output_dir step control fs).1
      (os_path_join (os_path_join output_dir (checkpoint_dir_name step))
        "pytorch_model.bin") = false := by
  refine ⟨rfl, ?_, ?_, ?_⟩
  · show _ ∈ (cleanup_full_snapshot _ (save_pretrained_adapter _ fs)).dirs
    rw [cleanup_full_snapshot_dirs]
    exact List.mem_cons_self _ _
  · show _ ∈ (cleanup_full_snapshot _ (save_pretrained_adapter _ fs)).files
    refine mem_files_cleanup_of_ne _ _ _ (List.mem_cons_self _ _) ?_
    exact adapter_file_ne_snapshot _
  · show path_exists (cleanup_full_snapshot _ (save_pretrained_adapter _ fs)) _ = false
    refine cleanup_path_exists_false _ _ ?_
    intro hmem
    rcases List.mem_cons.mp hmem with h | h
    · exact adapter_dir_ne_snapshot _ h.symm
    · exact hdir h

/-- Witness for C2, at the spec's scenario: global step 500, with the
generic trainer's full snapshot already written. -/
theorem claim2_witness :
    (os_path_join (os_path_join ["output"] (checkpoint_dir_name 500)) "pytorch_model.bin" ∉
      (FS.mk [(["output", "checkpoint-500", "pytorch_model.bin"],
        FileKind.fullModelSnapshot)] []).dirs) ∧
    (os_path_join ["output"] (checkpoint_dir_name 500) =
      ["output"] ++ ["checkpoint-" ++ toString 500] ∧
    os_path_join (os_path_join ["output"] (checkpoint_dir_name 500)) "adapter_model" ∈
      (on_save ["output"] 500 sample_control
        (FS.mk [(["output", "checkpoint-500", "pytorch_model.bin"],
          FileKind.fullModelSnapshot)] [])).1.dirs ∧
    (os_path_join (os_path_join (os_path_join ["output"] (checkpoint_dir_name 500))
        "adapter_model") "adapter_model.bin", FileKind.adapterWeights) ∈
      (on_save ["output"] 500 sample_control
        (FS.mk [(["output", "checkpoint-500", "pytorch_model.bin"],
          FileKind.fullModelSnapshot)] [])).1.files ∧
    path_exists (on_save ["output"] 500 sample_control
        (FS.mk [(["output", "checkpoint-500", "pytorch_model.bin"],
          FileKind.fullModelSnapshot)] [])).1
      (os_path_join (os_path_join ["output"] (checkpoint_dir_name 500))
        "pytorch_model.bin") = false) :=
  ⟨by decide, claim2_on_save_checkpoint_layout ["output"] 500 sample_control
    (FS.mk [(["output", "checkpoint-500", "pytorch_model.bin"],
      FileKind.fullModelSnapshot)] []) (by decide)⟩

/-- C3: the checkpoint-cleanup step deletes conditionally on existence.
On a checkpoint directory where `pytorch_model.bin` is absent it changes
nothing (and, being a total function, raises no error), so re-running it
there is a no-op. -/
theorem claim3_cleanup_conditional_noop (checkpoint_folder : Path) (fs : FS)
    (h : path_exists fs (os_path_join checkpoint_folder "pytorch_model.bin") = false) :
    cleanup_full_snapshot checkpoint_folder fs = fs ∧
    cleanup_full_snapshot checkpoint_folder (cleanup_full_snapshot checkpoint_folder fs) =
      cleanup_full_snapshot checkpoint_folder fs := by
  have h1 : cleanup_full_snapshot checkpoint_folder fs = fs := by
    simp only [cleanup_full_snapshot, h]
    simp
  exact ⟨h1, by rw [h1, h1]⟩

/-- Witness for C3, on an empty filesystem and the step-500 checkpoint
directory. -/
theorem claim3_witness :
    path_exists (FS.mk [] [])
      (os_path_join ["output", "checkpoint-500"] "pytorch_model.bin") = false ∧
    (cleanup_full_snapshot ["output", "checkpoint-500"] (FS.mk [] []) = FS.mk [] [] ∧
    cleanup_full_snapshot ["output", "checkpoint-500"]
        (cleanup_full_snapshot ["output", "checkpoint-500"] (FS.mk [] [])) =
      cleanup_full_snapshot ["output", "checkpoint-500"] (FS.mk [] [])) :=
  ⟨by decide, claim3_cleanup_conditional_noop ["output", "checkpoint-500"] (FS.mk [] []) (by decide)⟩

/-- C8: for every checkpoint event, `on_save` returns the trainer-control
object it received, unchanged; its whole effect is the returned
filesystem. -/
theorem claim8_on_save_returns_control_unchanged (output_dir : Path) (step : Nat)
    (control : TrainerControl) (fs : FS) :
    (on_save output_dir step control fs).2 = control := rfl

/-- Unpacking of `no_full_snapshot` to a membership statement. -/
lemma no_full_snapshot_iff (fs : FS) :
    no_full_snapshot fs = true ↔ ∀ e ∈ fs.files, e.2 ≠ FileKind.fullModelSnapshot := by
  simp only [no_full_snapshot, List.all_eq_true, Bool.not_eq_true', beq_eq_false_iff_ne]

/-- Case analysis of the files present after the adapter save. -/
lemma mem_files_save_pretrained (d : Path) (fs : FS) (e : Path × FileKind)
    (he : e ∈ (save_pretrained_adapter d fs).files) :
    e = (os_path_join d "adapter_model.bin", FileKind.adapterWeights) ∨
    e = (os_path_join d "adapter_config.json", FileKind.adapterConfig) ∨
    e ∈ fs.files := by
  simpa [save_pretrained_adapter] using he

/-- The save callback preserves snapshot-freeness of the filesystem. -/
lemma on_save_no_full (output_dir : Path) (step : Nat) (control : TrainerControl)
    (fs : FS) (h : no_full_snapshot fs = true) :
    no_full_snapshot (on_save output_dir step control fs).1 = true := by
  rw [no_full_snapshot_iff] at h ⊢
  intro e he
  have he' : e ∈ (cleanup_full_snapshot (os_path_join output_dir (checkpoint_dir_name step))
      (save_pretrained_adapter (os_path_join (os_path_join output_dir
        (checkpoint_dir_name step)) "adapter_model") fs)).files := he
  have h2 := mem_files_cleanup _ _ _ he'
  rcases mem_files_save_pretrained _ _ _ h2 with rfl | rfl | hmem
  · simp
  · simp
  · exact h e hmem

/-- Even when the generic trainer wrote its full snapshot just before, the
save callback leaves the filesystem snapshot-free. -/
lemma on_save_no_full_after_trainer_write (output_dir : Path) (step : Nat)
    (control : TrainerControl) (fs : FS) (h : no_full_snapshot fs = true) :
    no_full_snapshot
      (on_save output_dir step control (trainer_generic_save output_dir step fs)).1 = true := by
  rw [no_full_snapshot_iff] at h ⊢
  intro e he
  have he' : e ∈ (cleanup_full_snapshot (os_path_join output_dir (checkpoint_dir_name step))
      (save_pretrained_adapter (os_path_join (os_path_join output_dir
        (checkpoint_dir_name step)) "adapter_model")
        (trainer_generic_save output_dir step fs))).files := he
  have hex : path_exists (save_pretrained_adapter (os_path_join (os_path_join output_dir
      (checkpoint_dir_name step)) "adapter_model") (trainer_generic_save output_dir step fs))
      (os_path_join (os_path_join output_dir (checkpoint_dir_name step))
        "pytorch_model.bin") = true := by
    rw [path_exists, Bool.or_eq_true]
    left
    rw [List.any_eq_true]
    refine ⟨(os_path_join (os_path_join output_dir (checkpoint_dir_name step))
      "pytorch_model.bin", FileKind.fullModelSnapshot), ?_, by simp⟩
    simp [save_pretrained_adapter, trainer_generic_save]
  have hne := mem_files_cleanup_ne _ _ e hex he'
  have h2 := mem_files_cleanup _ _ _ he'
  rcases mem_files_save_pretrained _ _ _ h2 with rfl | rfl | hmem
  · simp
  · simp
  · have hmem' : e = (os_path_join (os_path_join output_dir (checkpoint_dir_name step))
        "pytorch_model.bin", FileKind.fullModelSnapshot) ∨ e ∈ fs.files := by
      simpa [trainer_generic_save] using hmem
    rcases hmem' with rfl | hmem''
    · exact absurd rfl hne
    · exact h e hmem''

/-- Each checkpoint event preserves snapshot-freeness. -/
lemma checkpoint_event_no_full (output_dir : Path) (step : Nat) (w : Bool)
    (control : TrainerControl) (fs : FS) (h : no_full_snapshot fs = true) :
    no_full_snapshot (checkpoint_event output_dir step w control fs) = true := by
  cases w with
  | false =>
      show no_full_snapshot (on_save output_dir step control fs).1 = true
      exact on_save_no_full output_dir step control fs h
  | true =>
      show no_full_snapshot
        (on_save output_dir step control (trainer_generic_save output_dir step fs)).1 = true
      exact on_save_no_full_after_trainer_write output_dir step control fs h

/-- Any sequence of checkpoint events preserves snapshot-freeness. -/
lemma run_checkpoints_no_full (output_dir : Path) (events : List (Nat × Bool))
    (control : TrainerControl) :
    ∀ fs : FS, no_full_snapshot fs = true →
      no_full_snapshot (run_checkpoints output_dir events control fs) = true := by
  induction events with
  | nil => exact fun fs h => h
  | cons ev evs ih =>
      intro fs h
      exact ih (checkpoint_event output_dir ev.1 ev.2 control fs)
        (checkpoint_event_no_full output_dir ev.1 ev.2 control fs h)

/-- In a snapshot-free filesystem, filtering for snapshots yields nothing. -/
lemma filter_full_eq_nil (fs : FS) (h : no_full_snapshot fs = true) :
    fs.files.filter (fun e => e.2 == FileKind.fullModelSnapshot) = [] := by
  rw [no_full_snapshot_iff] at h
  rw [List.filter_eq_nil_iff]
  intro e he
  simpa using h e he

/-- The adapter save preserves snapshot-freeness: it writes only adapter
content. -/
lemma save_pretrained_no_full (d : Path) (fs : FS)
    (h : no_full_snapshot fs = true) :
    no_full_snapshot (save_pretrained_adapter d fs) = true := by
  rw [no_full_snapshot_iff] at h ⊢
  intro e he
  rcases mem_files_save_pretrained _ _ _ he with rfl | rfl | hmem
  · simp
  · simp
  · exact h e hmem

/-- Counterexample to C1 as stated: in a primary-process run with one
checkpoint event, starting from an empty filesystem, the final
filesystem contains no full-model snapshot anywhere — in particular not
at the top-level output location — because the end-of-training
`save_pretrained` is called on the PEFT-wrapped model and writes only
the adapter files, exactly as in the callback.  The full base model is
persisted zero times, not exactly once. -/
theorem claim1_counterexample :
    full_snapshot_paths (run_training ["output"] [(500, true)] sample_control 0
      (FS.mk [] [])) = [] ∧
    full_snapshot_paths (run_training ["output"] [(500, true)] sample_control 0
      (FS.mk [] [])) ≠ [os_path_join ["output"] "pytorch_model.bin"] := by
  exact ⟨by decide, by decide⟩

/-- C1 (amended): during every intermediate checkpoint event only the
adapter weight subset is durably persisted (the full-model snapshot, if
present, is removed), and the full base model is never durably
persisted: starting from a snapshot-free filesystem, the filesystem is
snapshot-free after every prefix of checkpoint events and at the end of
the run; the end-of-training save, performed only on the designated
primary process (`local_rank = 0`), writes the adapter weights once to
the top-level output location. -/
theorem claim1_adapter_only_persistence (output_dir : Path)
    (events : List (Nat × Bool)) (control : TrainerControl) (fs : FS)
    (h0 : no_full_snapshot fs = true) :
    (∀ pre suf : List (Nat × Bool), events = pre ++ suf →
      no_full_snapshot (run_checkpoints output_dir pre control fs) = true) ∧
    no_full_snapshot (run_training output_dir events control 0 fs) = true ∧
    (os_path_join output_dir "adapter_model.bin", FileKind.adapterWeights) ∈
      (run_training output_dir events control 0 fs).files ∧
    output_dir ∈ (run_training output_dir events control 0 fs).dirs ∧
    (∀ local_rank : Int, local_rank ≠ 0 →
      run_training output_dir events control local_rank fs =
        run_checkpoints output_dir events control fs) := by
  have hmid := run_checkpoints_no_full output_dir events control fs h0
  have hrun : run_training output_dir events control 0 fs =
      save_pretrained_adapter output_dir (run_checkpoints output_dir events control fs) := by
    rw [run_training, final_save, if_pos rfl]
  refine ⟨?_, ?_, ?_, ?_, ?_⟩
  · intro pre _ _
    exact run_checkpoints_no_full output_dir pre control fs h0
  · rw [hrun]
    exact save_pretrained_no_full output_dir _ hmid
  · rw [hrun]
    exact List.mem_cons_self _ _
  · rw [hrun]
    exact List.mem_cons_self _ _
  · intro local_rank hlr
    rw [run_training, final_save, if_neg hlr]

/-- Witness for the amended C1: one checkpoint event at step 500 in which
the trainer wrote the full snapshot, starting from an empty filesystem;
the non-primary branch is exercised at `local_rank = 1`. -/
theorem claim1_witness :
    no_full_snapshot (FS.mk [] []) = true ∧
    no_full_snapshot (run_checkpoints ["output"] [(500, true)] sample_control
      (FS.mk [] [])) = true ∧
    no_full_snapshot (run_training ["output"] [(500, true)] sample_control 0
      (FS.mk [] [])) = true ∧
    (os_path_join ["output"] "adapter_model.bin", FileKind.adapterWeights) ∈
      (run_training ["output"] [(500, true)] sample_control 0 (FS.mk [] [])).files ∧
    (["output"] : Path) ∈
      (run_training ["output"] [(500, true)] sample_control 0 (FS.mk [] [])).dirs ∧
    run_training ["output"] [(500, true)] sample_control 1 (FS.mk [] []) =
      run_checkpoints ["output"] [(500, true)] sample_control (FS.mk [] []) :=
  ⟨by decide,
   (claim1_adapter_only_persistence ["output"] [(500, true)] sample_control
     (FS.mk [] []) (by decide)).1 [(500, true)] [] rfl,
   (claim1_adapter_only_persistence ["output"] [(500, true)] sample_control
     (FS.mk [] []) (by decide)).2.1,
   (claim1_adapter_only_persistence ["output"] [(500, true)] sample_control
     (FS.mk [] []) (by decide)).2.2.1,
   (claim1_adapter_only_persistence ["output"] [(500, true)] sample_control
     (FS.mk [] []) (by decide)).2.2.2.1,
   (claim1_adapter_only_persistence ["output"] [(500, true)] sample_control
     (FS.mk [] []) (by decide)).2.2.2.2 1 (by decide)⟩

/-- C4: `prepare_dataset` keeps batch lengths and order: the
`input_features` column has the length of the `audio` column, the
`labels` column has the length of the `sentence` column, and entry `i` of
each output column is the transform of entry `i` of the corresponding
input column. -/
theorem claim4_prepare_dataset_length_order {A F : Type}
    (feature_extractor : A → Nat → F) (tokenizer : String → List Nat)
    (batch : RawRecordBatch A) :
    (prepare_dataset feature_extractor tokenizer batch).input_features.length =
      batch.audio.length ∧
    (prepare_dataset feature_extractor tokenizer batch).labels.length =
      batch.sentence.length ∧
    (∀ i : Nat, (prepare_dataset feature_extractor tokenizer batch).input_features.get? i =
      (batch.audio.get? i).map (fun a => feature_extractor a.array a.sampling_rate)) ∧
    (∀ i : Nat, (prepare_dataset feature_extractor tokenizer batch).labels.get? i =
      (batch.sentence.get? i).map (fun s => tokenizer s)) := by
  refine ⟨?_, ?_, ?_, ?_⟩
  · simp [prepare_dataset]
  · simp [prepare_dataset]
  · intro i
    simp [prepare_dataset, List.get?_map]
  · intro i
    simp [prepare_dataset, List.get?_map]

/-- C5: the module-level assertion on the base-model identifier.  When the
directory component of `base_model` is not "openai", the prelude fails
fast having performed no event at all — in particular no dataset loading;
when it is "openai", execution proceeds past the check and reaches the
dataset loading. -/
theorem claim5_base_model_namespace_check (a : Args) :
    (os_path_dirname a.base_model ≠ "openai" →
      script_prelude a = ([], false) ∧
      ScriptEvent.loadDataset ∉ (script_prelude a).1) ∧
    (os_path_dirname a.base_model = "openai" →
      (script_prelude a).2 = true ∧
      ScriptEvent.loadDataset ∈ (script_prelude a).1) := by
  by_cases hc : "openai" = os_path_dirname a.base_model
  · refine ⟨fun h => absurd hc.symm h, fun _ => ⟨?_, ?_⟩⟩
    · simp [script_prelude, hc]
    · simp [script_prelude, hc]
  · refine ⟨fun _ => ⟨?_, ?_⟩, fun h => absurd h.symm hc⟩
    · simp [script_prelude, hc]
    · simp [script_prelude, hc]

/-- Witness for C5: the default identifier `openai/whisper-large-v2`
passes the check and reaches dataset loading; the bare identifier
`whisper-large-v2` fails fast with no event executed. -/
theorem claim5_witness :
    (os_path_dirname default_args.base_model = "openai" ∧
      (script_prelude default_args).2 = true ∧
      ScriptEvent.loadDataset ∈ (script_prelude default_args).1) ∧
    (os_path_dirname (Args.base_model { default_args with base_model := "whisper-large-v2" }) ≠
        "openai" ∧
      script_prelude { default_args with base_model := "whisper-large-v2" } = ([], false) ∧
      ScriptEvent.loadDataset ∉
        (script_prelude { default_args with base_model := "whisper-large-v2" }).1) :=
  ⟨⟨by decide, (claim5_base_model_namespace_check default_args).2 (by decide)⟩,
   ⟨by decide, (claim5_base_model_namespace_check
      { default_args with base_model := "whisper-large-v2" }).1 (by decide)⟩⟩

/-- C6: the adaptation wrapper performs its steps in the stated order —
8-bit quantized load with automatic device mapping, then clearing the
forced-decoding ids, then emptying the suppressed-token list, then int8
training preparation, then attaching the low-rank adapter — and the
adapter config has fixed rank 32, scaling factor 64, dropout 1/20, and
targets exactly the two attention projections `q_proj` and `v_proj`;
after `get_peft_model`, a parameter is trainable exactly when it is an
injected low-rank parameter on one of those two modules, so every other
parameter is frozen. -/
theorem claim6_adaptation_order_and_config :
    adaptation_steps =
      [AdaptStep.loadPretrained true "auto",
       AdaptStep.setForcedDecoderIds none,
       AdaptStep.setSuppressTokens [],
       AdaptStep.prepareInt8Training "proj_out",
       AdaptStep.attachLora lora_config] ∧
    lora_config.r = 32 ∧ lora_config.lora_alpha = 64 ∧
    lora_config.target_modules = ["q_proj", "v_proj"] ∧
    lora_config.lora_dropout = 1/20 ∧ lora_config.bias = "none" ∧
    get_peft_model_trainable lora_config =
      (fun p => p.is_lora && ("q_proj" == p.module || "v_proj" == p.module)) := by
  refine ⟨rfl, rfl, rfl, rfl, rfl, rfl, funext fun p => ?_⟩
  simp [get_peft_model_trainable, lora_config]

/-- C7: the `--output_path` flag has no effect on persistence: the
training arguments are identical for any two values of the flag, their
`output_dir` is the hardcoded "output", and the whole persisted run —
intermediate checkpoints and the end-of-training save — lands under
"output" regardless of the flag. -/
theorem claim7_output_path_has_no_effect (a : Args) (v : String)
    (events : List (Nat × Bool)) (control : TrainerControl) (local_rank : Int)
    (fs : FS) :
    make_training_args { a with output_path := v } = make_training_args a ∧
    (make_training_args a).output_dir = "output" ∧
    run_training [(make_training_args { a with output_path := v }).output_dir]
        events control local_rank fs =
      run_training ["output"] events control local_rank fs :=
  ⟨rfl, rfl, rfl⟩

/-- C9: `prepare_dataset` is a pure transformation of its batch argument:
at the statement level it returns the input dict unchanged and builds a
fresh output dict holding exactly the `input_features` and `labels`
columns; its type performs no effect beyond the feature-extraction and
tokenization parameters. -/
theorem claim9_prepare_dataset_no_mutation {A F : Type}
    (feature_extractor : A → Nat → F) (tokenizer : String → List Nat)
    (batch : PyDict A F) :
    (prepare_dataset_statements feature_extractor tokenizer batch).1 = batch ∧
    dict_keys (prepare_dataset_statements feature_extractor tokenizer batch).2 =
      ["input_features", "labels"] :=
  ⟨rfl, rfl⟩

/-- Every audio record of an accessed batch of a cast split carries the
cast target sample rate. -/
lemma access_cast_sampling_rate {A : Type} (resample : A → Nat → Nat → A)
    (target : Nat) (split : List (RawRecord A)) (idxs : List Nat) :
    ∀ a ∈ (access_batch (cast_column_audio resample target split) idxs).audio,
      a.sampling_rate = target := by
  intro a ha
  simp only [access_batch, List.mem_map, List.mem_filterMap] at ha
  obtain ⟨r, ⟨i, _, hget⟩, rfl⟩ := ha
  have hr : r ∈ cast_column_audio resample target split := List.get?_mem hget
  simp only [cast_column_audio, List.mem_map] at hr
  obtain ⟨r0, _, rfl⟩ := hr
  rfl

/-- C10: after line 58's cast of the `audio` column to 16000 Hz, every
record of both splits carries sample rate 16000, and on every access the
sample rate `prepare_dataset` passes to the feature extractor is 16000,
whatever each source record's original rate was. -/
theorem claim10_sixteen_khz_resample {A F : Type} (resample : A → Nat → Nat → A)
    (feature_extractor : A → Nat → F) (tokenizer : String → List Nat)
    (d : DatasetDict A) (idxs : List Nat) :
    ((cast_column_dict resample 16000 d).train ++
      (cast_column_dict resample 16000 d).test).all
        (fun r => r.audio.sampling_rate == 16000) = true ∧
    (prepare_dataset feature_extractor tokenizer
        (access_batch (cast_column_dict resample 16000 d).train idxs)).input_features =
      (access_batch (cast_column_dict resample 16000 d).train idxs).audio.map
        (fun a => feature_extractor a.array 16000) ∧
    (prepare_dataset feature_extractor tokenizer
        (access_batch (cast_column_dict resample 16000 d).test idxs)).input_features =
      (access_batch (cast_column_dict resample 16000 d).test idxs).audio.map
        (fun a => feature_extractor a.array 16000) := by
  refine ⟨?_, ?_, ?_⟩
  · simp [cast_column_dict, cast_column_audio, List.all_append, List.all_eq_true, audio_cast]
  · show (access_batch (cast_column_audio resample 16000 d.train) idxs).audio.map
        (fun a => feature_extractor a.array a.sampling_rate) = _
    exact List.map_congr_left fun a ha => by
      rw [access_cast_sampling_rate resample 16000 d.train idxs a ha]
  · show (access_batch (cast_column_audio resample 16000 d.test) idxs).audio.map
        (fun a => feature_extractor a.array a.sampling_rate) = _
    exact List.map_congr_left fun a ha => by
      rw [access_cast_sampling_rate resample 16000 d.test idxs a ha]

end Finetune
